import Mathlib

/-!
# Verification of the `flask_example` repository

Shallow embedding of the two web demos in this repository:

* `src/cluster/joker.py` — a joke-generator web app.  The logic of interest is
  `build_prompt` (lines 73-82), the response post-processing inside
  `generate_joke` (lines 100-113), and the topic validation in the two route
  handlers `home` (lines 168-199) and `joke_api` (lines 202-219).
* `src/flask_test.py` — teaching examples; the piece of interest is the
  name-shuffling route `shuffle_names` (lines 72-87).

Strings are modelled as `List Char`.  The language model, the wall clock and
`random.shuffle` are external collaborators; they are modelled as explicit
function parameters of the embedded handlers.
-/

/-- Python strings, modelled as lists of characters. -/
abbrev Str := List Char

/-- ASCII whitespace, as recognised by Python's `str.strip()` on the
character set that actually occurs in this program. -/
def isSpace (c : Char) : Bool :=
  c == ' ' || c == '\t' || c == '\n' || c == '\r' || c == '\x0b' || c == '\x0c'

/-- Leading-whitespace removal (the left half of Python `str.strip()`). -/
def trimLeft (t : Str) : Str := t.dropWhile isSpace

/-- Trailing-whitespace removal (the right half of Python `str.strip()`). -/
def trimRight (t : Str) : Str := (t.reverse.dropWhile isSpace).reverse

/-- Python `str.strip()`: remove leading and trailing whitespace. -/
def strip (t : Str) : Str := trimRight (trimLeft t)

/-- The assistant-turn marker `"<|assistant|>"` (joker.py line 103). -/
def asstMarker : Str := "<|assistant|>".data

/-- The end-of-text marker `"<|endoftext|>"` (joker.py line 109). -/
def eotMarker : Str := "<|endoftext|>".data

/-- The double-newline boundary `"\n\n"` (joker.py lines 110-111). -/
def dnlMarker : Str := "\n\n".data

/-- Python `marker in text` for the assistant marker: does `"<|assistant|>"`
occur as a contiguous substring? -/
def hasAsst : Str → Bool
  | [] => false
  | c :: rest => asstMarker.isPrefixOf (c :: rest) || hasAsst rest

/-- Python `text.split("<|assistant|>")[-1]`: the suffix of `text` after the
last occurrence of the assistant marker (the whole text if it never occurs).
Because `"<|assistant|>"` has no nontrivial border, two occurrences can never
overlap, so the last segment of Python's non-overlapping left-to-right split
is exactly the suffix after the last occurrence. -/
def afterAsst : Str → Str
  | [] => []
  | c :: rest =>
    if hasAsst rest then afterAsst rest
    else if asstMarker.isPrefixOf (c :: rest) then List.drop 12 rest
    else c :: rest

/-- Python `"<|endoftext|>" in text`. -/
def hasEot : Str → Bool
  | [] => false
  | c :: rest => eotMarker.isPrefixOf (c :: rest) || hasEot rest

/-- Fuelled scanner for `str.replace("<|endoftext|>", "")`: scan left to
right; on a match skip the 13 matched characters and continue after them
(matched text is consumed, the output is never rescanned), otherwise copy one
character.  Each step consumes at least one input character, so fuel equal to
the input length never runs out; the fuel-exhausted branch returns the rest
unchanged, which keeps the function total without changing its value. -/
def removeEotF : Nat → Str → Str
  | 0, t => t
  | _ + 1, [] => []
  | fuel + 1, c :: rest =>
    if eotMarker.isPrefixOf (c :: rest) then removeEotF fuel (List.drop 12 rest)
    else c :: removeEotF fuel rest

/-- Python `text.replace("<|endoftext|>", "")` (joker.py line 109). -/
def removeEot (t : Str) : Str := removeEotF t.length t

/-- Python `"\n\n" in text`. -/
def hasDNL : Str → Bool
  | [] => false
  | c :: rest => dnlMarker.isPrefixOf (c :: rest) || hasDNL rest

/-- Python `text.split("\n\n")[0]`: the longest prefix of `text` not
containing a double newline (everything before the first occurrence). -/
def beforeDNL : Str → Str
  | [] => []
  | c :: rest => if dnlMarker.isPrefixOf (c :: rest) then [] else c :: beforeDNL rest

/-- The response post-processing of `generate_joke`, joker.py lines 102-113:

    marker = "<|assistant|>"
    if marker in text:
        answer = text.split(marker)[-1]
    else:
        answer = text
    answer = answer.replace("<|endoftext|>", "").strip()
    if "\n\n" in answer:
        answer = answer.split("\n\n")[0].strip()
    return answer
-/
def extract_answer (text : Str) : Str :=
  let answer := if hasAsst text then afterAsst text else text
  let answer := strip (removeEot answer)
  if hasDNL answer then strip (beforeDNL answer) else answer

/-- `build_prompt`, joker.py lines 73-82: the chat-style prompt, a
concatenation of string literals with the topic interpolated. -/
def build_prompt (topic : Str) : Str :=
  "<|system|>\n".data ++
  "You are a witty comedian. Tell short, clean jokes suitable for a classroom.\n".data ++
  "Keep it to less than 400 characters. Avoid offensive content.\n".data ++
  "<|user|>\n".data ++
  ("Tell me a joke about: ".data ++ topic ++ "\n".data) ++
  "<|assistant|>\n".data

/-- `generate_joke`, joker.py lines 86-113.  The tokenizer, the model and the
decoder are external collaborators; together they take the prompt string to
the raw decoded text, modelled by the oracle `gen`.  The function builds the
prompt, runs the collaborator once and post-processes its output. -/
def generate_joke (gen : Str → Str) (topic : Str) : Str :=
  extract_answer (gen (build_prompt topic))

/-- The configured model name (joker.py line 47, default value). -/
def MODEL_NAME : String := "TinyLlama/TinyLlama-1.1B-Chat-v1.0"

/-- The reported device name (`torch.cuda.get_device_name(0)`, an external
value; any fixed string represents it). -/
def DEVICE_NAME : String := "cuda:0"

/-- Result of the `home` route (joker.py lines 168-199): either the page
rendered with the missing-topic error and no joke, or the page rendered with
the topic and a generated joke. -/
inductive HomeResult where
  | errorPage (error : String)
  | jokePage (topic joke : Str)
  deriving DecidableEq

/-- Result of the `joke_api` route (joker.py lines 202-219).  The success
payload mirrors the dict literal at lines 213-219 field by field. -/
structure JokeResponse where
  topic : Str
  joke : Str
  model : String
  device : String
  latency_seconds : Int
  deriving DecidableEq

/-- An API response: an error body with its HTTP status, or the JSON payload
of a successful generation. -/
inductive ApiResult where
  | err (error : String) (status : Nat)
  | ok (body : JokeResponse)
  deriving DecidableEq

/-- The `home` route handler, joker.py lines 168-199.
`topicParam` models `request.args.get("topic")` (`none` when the query
parameter is absent); `(... or "").strip()` becomes `strip (topicParam.getD [])`.
The generation collaborator `gen` is only consulted on the success path. -/
def home (gen : Str → Str) (topicParam : Option Str) : HomeResult :=
  let topic := strip (topicParam.getD [])
  if topic = [] then .errorPage "Please enter a topic to generate a joke."
  else .jokePage topic (generate_joke gen topic)

/-- The `joke_api` route handler, joker.py lines 202-219.  `lat` models the
externally measured wall-clock latency placed into the response. -/
def joke_api (gen : Str → Str) (lat : Int) (topicParam : Option Str) : ApiResult :=
  let topic := strip (topicParam.getD [])
  if topic = [] then .err "Missing required query parameter: topic" 400
  else .ok ⟨topic, generate_joke gen topic, MODEL_NAME, DEVICE_NAME, lat⟩

/-- Python `names.split(",")`: split on every comma; always at least one
(possibly empty) segment. -/
def splitComma : Str → List Str
  | [] => [[]]
  | c :: rest =>
    if c = ',' then [] :: splitComma rest
    else
      match splitComma rest with
      | [] => [[c]]
      | s :: ss => (c :: s) :: ss

/-- flask_test.py line 79:
`[name.strip() for name in names.split(",") if name.strip()]` —
the trimmed, non-empty comma-separated pieces of the input. -/
def parseNames (names : Str) : List Str :=
  ((splitComma names).map strip).filter (fun n => !n.isEmpty)

/-- One rendered list item, flask_test.py line 82: `f"<li>{name}</li>"`. -/
def liItem (n : Str) : Str := "<li>".data ++ n ++ "</li>".data

/-- The list items rendered by the `shuffle_names` route, flask_test.py
lines 72-87.  `sh` models `random.shuffle` (an externally chosen
rearrangement of the list).  With an empty `names` parameter no list is
rendered at all. -/
def shuffle_names (sh : List Str → List Str) (names : Str) : List Str :=
  if names = [] then []
  else (sh (parseNames names)).map liItem

/-! ## Helper lemmas -/

lemma dnlMarker_eq : dnlMarker = ['\n', '\n'] := rfl

lemma trimLeft_trimLeft (t : Str) : trimLeft (trimLeft t) = trimLeft t := by
  simp [trimLeft, List.dropWhile_idempotent]

lemma trimRight_trimRight (t : Str) : trimRight (trimRight t) = trimRight t := by
  simp [trimRight, List.dropWhile_idempotent]

lemma trimLeft_suf (t : Str) : trimLeft t <:+ t :=
  List.dropWhile_suffix isSpace

lemma reverse_pre_of_suf {s l : List Char} (h : s <:+ l) :
    s.reverse <+: l.reverse := by
  obtain ⟨t, ht⟩ := h
  exact ⟨t.reverse, by rw [← List.reverse_append, ht]⟩

lemma trimRight_pre (t : Str) : trimRight t <+: t := by
  have h := reverse_pre_of_suf (trimLeft_suf t.reverse)
  simpa [trimRight, trimLeft] using h

lemma trimLeft_trimRight_of {t : Str} (h : trimLeft t = t) :
    trimLeft (trimRight t) = trimRight t := by
  cases hc : trimRight t with
  | nil => rfl
  | cons c X =>
    obtain ⟨u, hu⟩ := trimRight_pre t
    rw [hc] at hu
    subst hu
    rw [trimLeft, List.dropWhile_eq_self_iff] at h
    have hcf : isSpace c = false := by
      have h0 := h (by simp)
      simpa using h0
    simp [trimLeft, List.dropWhile_cons, hcf]

lemma strip_strip (t : Str) : strip (strip t) = strip t := by
  show trimRight (trimLeft (trimRight (trimLeft t))) = trimRight (trimLeft t)
  rw [trimLeft_trimRight_of (trimLeft_trimLeft t), trimRight_trimRight]

lemma strip_nil_of_space {s : Str} (h : ∀ c ∈ s, isSpace c = true) :
    strip s = [] := by
  have h1 : trimLeft s = [] := by
    rw [trimLeft, List.dropWhile_eq_nil_iff]
    exact h
  rw [strip, h1]
  rfl

lemma hasDNL_iff {s : Str} : hasDNL s = true ↔ ∃ a b, s = a ++ '\n' :: '\n' :: b := by
  induction s with
  | nil => simp [hasDNL]
  | cons c rest ih =>
    simp only [hasDNL, Bool.or_eq_true, ih]
    constructor
    · rintro (hp | ⟨a, b, rfl⟩)
      · rw [ List.isPrefixOf_iff_prefix] at hp
        obtain ⟨t, ht⟩ := hp
        rw [dnlMarker_eq] at ht
        exact ⟨[], t, by simpa using ht.symm⟩
      · exact ⟨c :: a, b, rfl⟩
    · rintro ⟨a, b, hab⟩
      cases a with
      | nil =>
        left
        simp only [List.nil_append] at hab
        rw [ List.isPrefixOf_iff_prefix, dnlMarker_eq, hab]
        exact ⟨b, rfl⟩
      | cons x a' =>
        right
        simp only [List.cons_append, List.cons.injEq] at hab
        exact ⟨a', b, hab.2⟩

lemma hasDNL_strip_false {x : Str} (h : hasDNL x = false) :
    hasDNL (strip x) = false := by
  by_contra hc
  have htrue : hasDNL (strip x) = true := by simpa using hc
  rw [hasDNL_iff] at htrue
  obtain ⟨a, b, hab⟩ := htrue
  obtain ⟨v, hv⟩ := trimRight_pre (trimLeft x)
  obtain ⟨u, hu⟩ := trimLeft_suf x
  have hx : x = (u ++ a) ++ '\n' :: '\n' :: (b ++ v) := by
    rw [← hu, ← hv]
    show u ++ (strip x ++ v) = _
    rw [hab]
    simp [List.append_assoc]
  have : hasDNL x = true := hasDNL_iff.mpr ⟨u ++ a, b ++ v, hx⟩
  rw [h] at this
  cases this

lemma beforeDNL_of_false {s : Str} (h : hasDNL s = false) : beforeDNL s = s := by
  induction s with
  | nil => rfl
  | cons c rest ih =>
    simp only [hasDNL, Bool.or_eq_false_iff] at h
    simp only [beforeDNL]
    rw [if_neg (by simp [h.1]), ih h.2]

lemma beforeDNL_head {rest : Str} {d : Char} {r : Str}
    (h : beforeDNL rest = d :: r) : ∃ r', rest = d :: r' := by
  cases rest with
  | nil => cases h
  | cons e r2 =>
    simp only [beforeDNL] at h
    by_cases hp : dnlMarker.isPrefixOf (e :: r2) = true
    · rw [if_pos hp] at h
      cases h
    · rw [if_neg hp] at h
      injection h with h1 _
      exact ⟨r2, by rw [h1]⟩

lemma hasDNL_beforeDNL (s : Str) : hasDNL (beforeDNL s) = false := by
  induction s with
  | nil => rfl
  | cons c rest ih =>
    simp only [beforeDNL]
    by_cases hp : dnlMarker.isPrefixOf (c :: rest) = true
    · rw [if_pos hp]
      rfl
    · rw [if_neg hp]
      simp only [hasDNL, Bool.or_eq_false_iff]
      refine ⟨?_, ih⟩
      cases hq : dnlMarker.isPrefixOf (c :: beforeDNL rest) with
      | false => rfl
      | true =>
        exfalso
        apply hp
        rw [ List.isPrefixOf_iff_prefix, dnlMarker_eq] at hq
        obtain ⟨t, ht⟩ := hq
        simp only [List.cons_append, List.nil_append, List.cons.injEq] at ht
        obtain ⟨hc1, hrest⟩ := ht
        obtain ⟨r', hr'⟩ := beforeDNL_head hrest.symm
        rw [ List.isPrefixOf_iff_prefix, dnlMarker_eq]
        exact ⟨r', by simp [hc1.symm, hr']⟩

lemma removeEotF_of_false : ∀ (f : Nat) {t : Str}, hasEot t = false → removeEotF f t = t := by
  intro f
  induction f with
  | zero => intro t _; rfl
  | succ f ih =>
    intro t h
    cases t with
    | nil => rfl
    | cons c rest =>
      simp only [hasEot, Bool.or_eq_false_iff] at h
      simp only [removeEotF]
      rw [if_neg (by simp [h.1]), ih h.2]

lemma removeEot_of_false {t : Str} (h : hasEot t = false) : removeEot t = t :=
  removeEotF_of_false _ h

/-- Closed form of the extractor: whichever branch the double-newline test
takes, the result is the stripped prefix before the first double newline of
the stripped, end-of-text-free answer. -/
lemma extract_answer_eq (text : Str) :
    extract_answer text
      = strip (beforeDNL (strip (removeEot (if hasAsst text then afterAsst text else text)))) := by
  show (if hasDNL (strip (removeEot (if hasAsst text then afterAsst text else text)))
        then strip (beforeDNL (strip (removeEot (if hasAsst text then afterAsst text else text))))
        else strip (removeEot (if hasAsst text then afterAsst text else text))) = _
  by_cases h2 : hasDNL (strip (removeEot (if hasAsst text then afterAsst text else text))) = true
  · rw [if_pos h2]
  · rw [if_neg h2, beforeDNL_of_false (by simpa using h2)]
    exact (strip_strip _).symm

/-! ## The claims -/

/-- Modelled from the spec: the Response Extractor output as claim C1 words
it — the substring after the last assistant-turn marker, every end-of-text
marker occurrence removed, surrounding whitespace stripped, and the result
truncated at the first double-newline boundary (truncation applied last, as
listed). -/
def specExtractC1 (text : Str) : Str :=
  beforeDNL (strip (removeEot (afterAsst text)))

/-- C1 (counterexample): on `"<|assistant|>a \n\nb"` the transformation
order stated by the claim yields `"a "` (the double-newline truncation can
expose trailing whitespace), but the code strips again after truncating and
returns `"a"`. -/
theorem C1_counterexample :
    hasAsst "<|assistant|>a \n\nb".data = true ∧
    extract_answer "<|assistant|>a \n\nb".data
      ≠ specExtractC1 "<|assistant|>a \n\nb".data := by
  decide

/-- C1 (amended): for every raw text containing the assistant-turn marker,
the extractor returns the substring following the last marker occurrence,
with end-of-text markers removed, surrounding whitespace stripped, the
result truncated at the first double newline, and surrounding whitespace
stripped once more after truncation. -/
theorem C1_extract_after_last_marker (text : Str) (h : hasAsst text = true) :
    extract_answer text = strip (beforeDNL (strip (removeEot (afterAsst text)))) := by
  rw [extract_answer_eq, if_pos h]

/-- C1 witness: the amended statement evaluated on a concrete raw text. -/
theorem C1_witness :
    hasAsst "x<|assistant|> ok ".data = true ∧
    extract_answer "x<|assistant|> ok ".data
      = strip (beforeDNL (strip (removeEot (afterAsst "x<|assistant|> ok ".data)))) :=
  ⟨by decide, C1_extract_after_last_marker _ (by decide)⟩

/-- C2 (counterexample): with no assistant marker the extractor still strips
surrounding whitespace (and would also truncate at a double newline), so on
`"  hi  "` it returns `"hi"`, not the end-of-text-free input `"  hi  "`. -/
theorem C2_counterexample :
    hasAsst "  hi  ".data = false ∧
    extract_answer "  hi  ".data ≠ removeEot "  hi  ".data := by
  decide

/-- C2 (amended): for every raw text without the assistant-turn marker, the
extractor applies the same post-processing as the marker-present path to the
entire input — end-of-text removal, whitespace strip, truncation at the
first double newline, and a final strip — rather than returning the input
unchanged minus end-of-text markers. -/
theorem C2_no_marker_same_postprocessing (text : Str) (h : hasAsst text = false) :
    extract_answer text = strip (beforeDNL (strip (removeEot text))) := by
  rw [extract_answer_eq, if_neg (by simp [h])]

/-- C2 witness: the amended statement evaluated on a concrete marker-free
raw text. -/
theorem C2_witness :
    hasAsst "a\n\nb".data = false ∧
    extract_answer "a\n\nb".data = strip (beforeDNL (strip (removeEot "a\n\nb".data))) :=
  ⟨by decide, C2_no_marker_same_postprocessing _ (by decide)⟩

/-- C5: the Response Extractor is idempotent on its own output — on any
string that is marker-free, end-of-text-free, double-newline-free and
whitespace-trimmed, extraction is the identity. -/
theorem C5_extract_idempotent (s : Str)
    (h1 : hasAsst s = false) (h2 : hasEot s = false)
    (h3 : hasDNL s = false) (h4 : strip s = s) :
    extract_answer s = s := by
  rw [extract_answer_eq, if_neg (by simp [h1]), removeEot_of_false h2, h4,
      beforeDNL_of_false h3, h4]

/-- C5 witness: idempotence evaluated on a concrete already-extracted
string. -/
theorem C5_witness :
    hasAsst "ho ho".data = false ∧ hasEot "ho ho".data = false ∧
    hasDNL "ho ho".data = false ∧ strip "ho ho".data = "ho ho".data ∧
    extract_answer "ho ho".data = "ho ho".data :=
  ⟨by decide, by decide, by decide, by decide,
    C5_extract_idempotent _ (by decide) (by decide) (by decide) (by decide)⟩

/-- C6: on the concrete raw text
`"...<|assistant|>\nWhy did X? Because Y.<|endoftext|>"` the extractor
returns exactly `"Why did X? Because Y."`. -/
theorem C6_concrete_extraction :
    extract_answer "...<|assistant|>\nWhy did X? Because Y.<|endoftext|>".data
      = "Why did X? Because Y.".data := by
  decide

/-- C9 (counterexample): removing `"<|endoftext|>"` occurrences left to
right can splice the surrounding characters into brand-new marker
occurrences.  On the input below the extractor outputs
`"<|assistant|><|endoftext|>"`, which contains both the assistant marker and
the end-of-text marker, refuting the claimed output invariant. -/
theorem C9_counterexample :
    ¬ (hasAsst (extract_answer "<|assist<|endoftext|>ant|><|endo<|endoftext|>ftext|>".data) = false ∧
       hasEot (extract_answer "<|assist<|endoftext|>ant|><|endo<|endoftext|>ftext|>".data) = false ∧
       hasDNL (extract_answer "<|assist<|endoftext|>ant|><|endo<|endoftext|>ftext|>".data) = false ∧
       strip (extract_answer "<|assist<|endoftext|>ant|><|endo<|endoftext|>ftext|>".data)
         = extract_answer "<|assist<|endoftext|>ant|><|endo<|endoftext|>ftext|>".data) := by
  decide

/-- C9 (amended): for every input raw text the extracted joke contains no
double newline and has no leading or trailing whitespace; it may, however,
still contain assistant-marker or end-of-text-marker occurrences spliced
together by the end-of-text removal. -/
theorem C9_output_invariant (text : Str) :
    hasDNL (extract_answer text) = false ∧
    strip (extract_answer text) = extract_answer text := by
  rw [extract_answer_eq]
  exact ⟨hasDNL_strip_false (hasDNL_beforeDNL _), strip_strip _⟩

/-- The user-turn marker `"<|user|>"`. -/
def userMarker : Str := "<|user|>".data

/-- C3: whenever the topic query parameter is missing, empty, or
whitespace-only, both entry points take the missing-topic error path — the
HTML validation message on `/`, the structured error object with status 400
on `/joke` — and this holds for every generation collaborator `gen`
(and every latency), so the collaborator is never consulted on such a
request. -/
theorem C3_missing_topic_error_path (p : Option Str)
    (h : p = none ∨ ∃ s, p = some s ∧ ∀ c ∈ s, isSpace c = true) :
    ∀ (gen : Str → Str) (lat : Int),
      home gen p = HomeResult.errorPage "Please enter a topic to generate a joke." ∧
      joke_api gen lat p = ApiResult.err "Missing required query parameter: topic" 400 := by
  have hs : strip (p.getD []) = [] := by
    rcases h with rfl | ⟨s, rfl, hsp⟩
    · rfl
    · exact strip_nil_of_space hsp
  intro gen lat
  constructor
  · simp [home, hs]
  · simp [joke_api, hs]

/-- C3 witness: the error path evaluated on a concrete whitespace-only
parameter and a concrete collaborator. -/
theorem C3_witness :
    home (fun r => r) (some [' ']) = HomeResult.errorPage "Please enter a topic to generate a joke." ∧
    joke_api (fun r => r) 7 (some [' ']) = ApiResult.err "Missing required query parameter: topic" 400 :=
  C3_missing_topic_error_path (some [' ']) (Or.inr ⟨[' '], rfl, by decide⟩) (fun r => r) 7

/-- C4: for every non-empty topic, the built prompt contains the topic as a
literal substring, with an occurrence of the user-turn marker before it and
an occurrence of the assistant-turn marker after it. -/
theorem C4_topic_between_markers (topic : Str) (_h : topic ≠ []) :
    ∃ a b, build_prompt topic = a ++ topic ++ b ∧
      (∃ u v, a = u ++ userMarker ++ v) ∧
      (∃ w x, b = w ++ asstMarker ++ x) := by
  refine ⟨"<|system|>\nYou are a witty comedian. Tell short, clean jokes suitable for a classroom.\nKeep it to less than 400 characters. Avoid offensive content.\n<|user|>\nTell me a joke about: ".data,
          "\n<|assistant|>\n".data, ?_, ?_, ?_⟩
  · simp only [build_prompt, List.append_assoc]
    rfl
  · exact ⟨"<|system|>\nYou are a witty comedian. Tell short, clean jokes suitable for a classroom.\nKeep it to less than 400 characters. Avoid offensive content.\n".data,
           "\nTell me a joke about: ".data, by rfl⟩
  · exact ⟨"\n".data, "\n".data, by rfl⟩

/-- C4 witness: the decomposition evaluated at the concrete topic
`"cats"`. -/
theorem C4_witness :
    "cats".data ≠ ([] : Str) ∧
    (∃ a b, build_prompt "cats".data = a ++ "cats".data ++ b ∧
      (∃ u v, a = u ++ userMarker ++ v) ∧
      (∃ w x, b = w ++ asstMarker ++ x)) :=
  ⟨by decide, C4_topic_between_markers _ (by decide)⟩

/-- C7: for every request to `/joke` whose topic parameter strips to a
non-empty string, the response is the success object with exactly the fields
`{topic, joke, model, device, latency_seconds}` (the `JokeResponse`
structure mirrors the dict literal field by field), and its `topic` field is
the whitespace-trimmed supplied parameter with no further transformation. -/
theorem C7_api_success_shape (gen : Str → Str) (lat : Int) (s : Str)
    (h : strip s ≠ []) :
    joke_api gen lat (some s)
      = ApiResult.ok ⟨strip s, generate_joke gen (strip s), MODEL_NAME, DEVICE_NAME, lat⟩ := by
  simp only [joke_api, Option.getD_some]
  rw [if_neg h]

/-- C7 witness: the success shape evaluated on the concrete topic `"cats"`
and a concrete collaborator. -/
theorem C7_witness :
    strip "cats".data ≠ [] ∧
    joke_api (fun _ => []) 0 (some "cats".data)
      = ApiResult.ok ⟨strip "cats".data, generate_joke (fun _ => []) (strip "cats".data),
          MODEL_NAME, DEVICE_NAME, 0⟩ :=
  ⟨by decide, C7_api_success_shape _ 0 _ (by decide)⟩

/-- Modelled from the spec: the prompt as a fixed three-part template — a
fixed persona/safety instruction, the topic embedded in a fixed phrase, and
the assistant-turn opener. -/
def specPromptTemplate (topic : Str) : Str :=
  "<|system|>\nYou are a witty comedian. Tell short, clean jokes suitable for a classroom.\nKeep it to less than 400 characters. Avoid offensive content.\n".data ++
  ("<|user|>\nTell me a joke about: ".data ++ topic ++ "\n".data) ++
  "<|assistant|>\n".data

/-- C8: the Prompt Builder is pure string formatting over a fixed three-part
template — for every topic it returns exactly the fixed template with the
topic interpolated.  In this embedding `build_prompt` is a total function of
the topic alone, so determinism (two runs on the same topic agree, and the
output depends on nothing but the topic) and the absence of error conditions
are inherited from the equation itself. -/
theorem C8_prompt_builder_deterministic_template (topic : Str) :
    build_prompt topic = specPromptTemplate topic := by
  simp only [build_prompt, specPromptTemplate, List.append_assoc]
  rfl

/-- C10: the name-shuffling route preserves content as a multiset — for
every non-empty `names` parameter and every rearrangement `sh` performed by
`random.shuffle`, the rendered list items are exactly a permutation of the
`<li>`-wrapped trimmed, non-empty comma-separated pieces of the input: no
name is added, dropped, or altered. -/
theorem C10_shuffle_preserves_multiset (sh : List Str → List Str)
    (hsh : ∀ l, List.Perm (sh l) l) (names : Str) (h : names ≠ []) :
    List.Perm (shuffle_names sh names) ((parseNames names).map liItem) := by
  simp only [shuffle_names, if_neg h]
  exact (hsh (parseNames names)).map liItem

/-- C10 witness: the multiset preservation evaluated with `List.reverse` as
the concrete rearrangement and `"b, a"` as the names parameter. -/
theorem C10_witness :
    "b, a".data ≠ ([] : Str) ∧
    List.Perm (shuffle_names List.reverse "b, a".data) ((parseNames "b, a".data).map liItem) :=
  ⟨by decide, C10_shuffle_preserves_multiset List.reverse (fun l => List.reverse_perm l) _ (by decide)⟩
